import Mathlib

/-!
Verification of the line-layout decision engine of the cercis formatter
(`src/cercis/lines.py`): the `Line` buffer with its append/comment protocol,
magic-trailing-comma detection, the line-fit judge (`is_line_short_enough`,
`can_omit_invisible_parens`) and the blank-line tracker (`EmptyLineTracker`).

The engine's collaborators (`blib2to3` token tree, `cercis.brackets`,
`cercis.nodes`, `cercis.mode`, `cercis.indent`, `cercis.strings`) are external
to the verified source file; where their behaviour is observed it is modelled
from the specification and marked `Modelled from the spec` in the doc comment.
Python `int` arithmetic that can go negative is modelled with `Int`; Python
exceptions are modelled with `Except`.
-/

/-! Token type tags of the external `blib2to3.pgen2.token` module.  Only
distinctness of the tags matters to the verified code; the numeric values are
the ones the external module assigns. -/
namespace token

def NAME : Nat := 1

def STRING : Nat := 3

def LPAR : Nat := 7

def RPAR : Nat := 8

def LSQB : Nat := 9

def RSQB : Nat := 10

def COLON : Nat := 11

def COMMA : Nat := 12

def DOT : Nat := 23

def LBRACE : Nat := 26

def RBRACE : Nat := 27

def AT : Nat := 50

def COMMENT : Nat := 53

def ASYNC : Nat := 57

end token

/-- Synthetic token type of a standalone comment (from the external
`cercis.nodes` module). -/
def STANDALONE_COMMENT : Nat := 153

/-! Grammar-symbol tags of the external parse-tree nodes referenced by the
verified code.  Only distinctness matters. -/
namespace syms

def trailer : Nat := 1001

def subscriptlist : Nat := 1002

def listmaker : Nat := 1003

end syms

def OPENING_BRACKETS : List Nat := [token.LPAR, token.LSQB, token.LBRACE]

def CLOSING_BRACKETS : List Nat := [token.RPAR, token.RSQB, token.RBRACE]

def BRACKETS : List Nat := OPENING_BRACKETS ++ CLOSING_BRACKETS

/-- Delimiter priority of a comma, from the external `cercis.brackets`
module. -/
def COMMA_PRIORITY : Nat := 18

/-- Delimiter priority of attribute access (a dot), from the external
`cercis.brackets` module. -/
def DOT_PRIORITY : Nat := 1

/-- Characters Python's `str.strip()` removes by default (ASCII range). -/
def isPySpace (c : Char) : Bool :=
  c = ' ' ∨ c = '\t' ∨ c = '\n' ∨ c = '\x0d' ∨ c = '\x0b' ∨ c = '\x0c'

/-- Python `s.strip()` (default whitespace). -/
def pyStrip (s : String) : String :=
  String.mk (((s.toList.dropWhile isPySpace).reverse.dropWhile isPySpace).reverse)

/-- Python `s.strip(ch)` for a single character. -/
def pyStripChar (s : String) (c : Char) : String :=
  String.mk (((s.toList.dropWhile (· = c)).reverse.dropWhile (· = c)).reverse)

/-- Python `ch in s` for a single character. -/
def containsChar (s : String) (c : Char) : Bool :=
  s.toList.contains c

/-- Python `s.count(ch)` for a single character. -/
def countChar (s : String) (c : Char) : Nat :=
  s.toList.count c

/-- Whether the first list is a prefix of the second (Python `startswith`). -/
def startsWithChars : List Char → List Char → Bool
  | [], _ => true
  | _ :: _, [] => false
  | p :: ps, c :: cs => p = c && startsWithChars ps cs

/-- Python `sub in s` (substring containment). -/
def containsSub (sub s : String) : Bool :=
  go sub.toList s.toList
where
  go (needle : List Char) : List Char → Bool
    | [] => startsWithChars needle []
    | c :: cs => startsWithChars needle (c :: cs) || go needle cs

/-- Python `s.split(ch)` on lists of characters. -/
def splitChar (c : Char) : List Char → List (List Char)
  | [] => [[]]
  | x :: t =>
    let r := splitChar c t
    if x = c then [] :: r
    else
      match r with
      | h :: t2 => (x :: h) :: t2
      | [] => [[x]]

/-- One terminal token ("leaf") of the external parse tree.  The tree linkage
the verified code reads (parent node, sibling, matching bracket, structural
classifications computed by `cercis.nodes`) is carried as precomputed fields,
Modelled from the spec's external-interface section: type tag, literal text,
mutable whitespace prefix (`pfx`), source line number (0 = synthetic),
identity (`lid`, Python `id()`), bracket depth, parent/sibling/bracket-partner
links, and per-leaf classifications. -/
structure Leaf where
  ttype : Nat
  value : String
  pfx : String := ""
  lid : Nat := 0
  lineno : Nat := 0
  bracketDepth : Nat := 0
  /-- Type tag of the parent node, `none` when the leaf has no parent. -/
  parentType : Option Nat := none
  /-- Python `len(list(parent.leaves()))`, meaningful when a parent exists. -/
  parentNLeaves : Nat := 0
  /-- Identity of the matching opening bracket, for closing brackets. -/
  openingBracketId : Option Nat := none
  /-- Identity of the previous sibling node, `none` when there is none. -/
  prevSiblingId : Option Nat := none
  /-- Identity and rendered text of each ancestor node, nearest first. -/
  ancestors : List (Nat × String) := []
  /-- Modelled from the spec: `is_import(leaf)` of the external nodes module. -/
  isImportStmt : Bool := false
  /-- Modelled from the spec: `is_with_or_async_with_stmt(leaf)`. -/
  withStmtRoot : Bool := false
  /-- Modelled from the spec: whether the enclosing subscript content is
  complex (the external tree walk of `is_complex_subscript`). -/
  complexSubscript : Bool := false
  /-- Python `fmt_pass_converted_first_leaf`: `none` when absent, otherwise
  the `is_import` classification of the recorded original first leaf (the only
  matcher the verified file applies to it). -/
  fmtPassFirstImport : Option Bool := none
deriving Repr, DecidableEq

/-- Python `str(leaf)`: its whitespace prefix followed by its text. -/
def leafStr (l : Leaf) : String :=
  l.pfx ++ l.value

/-- Formatter configuration, Modelled from the spec's configuration surface:
width budget, tabs, preview toggles, pragma handling, stub-file mode, and
whether magic trailing commas are honored.  `Preview.x in mode` of the source
is modelled as the toggle field `x`. -/
structure Mode where
  line_length : Nat := 88
  magic_trailing_comma : Bool := true
  is_pyi : Bool := false
  wrap_pragma_comments : Bool := false
  use_tabs : Bool := false
  preview : Bool := false
  multiline_string_handling : Bool := false
  blank_line_after_nested_stub_class : Bool := false
  wrap_multiple_context_managers_in_parens : Bool := false
deriving Repr, DecidableEq

/-- Modelled from the spec: display width of a rendered string (the external
wide-character-aware width of `cercis.strings.str_width`); wide code points
count two columns, everything else one. -/
def str_width (s : String) : Nat :=
  s.toList.foldl (fun n c => n + (if 0x1100 ≤ c.toNat then 2 else 1)) 0

/-- Modelled from the spec: one indentation context of the external indent
module — its literal text and the text used for width calculation (tabs
expanded). -/
structure Indent where
  chars : String := "    "
  width_chars : String := "    "
deriving Repr, DecidableEq

/-- Modelled from the spec: render an ordered sequence of indent contexts
(`MultipleIndents.render`). -/
def renderIndents (depth : List Indent) (for_width_calculation : Bool) : String :=
  String.join (depth.map (fun i => if for_width_calculation then i.width_chars else i.chars))

/-- Modelled from the spec: the external delimiter tracker's observable state —
bracket depth, the delimiter map (leaf identity to split priority at that
point) and the innermost open square bracket.  Its `mark` update of the
delimiter map and of `open_lsqb` is internal to the external module; every
theorem below quantifies over arbitrary tracker states, so `mark` is modelled
as the depth bookkeeping only. -/
structure BracketTracker where
  depth : Nat := 0
  delimiters : List (Nat × Nat) := []
  open_lsqb : Option Nat := none
deriving Repr, DecidableEq

/-- Modelled from the spec: `mark(token)` updates depth/priority state as a
token is appended. -/
def BracketTracker.mark (bt : BracketTracker) (leaf : Leaf) : BracketTracker :=
  if OPENING_BRACKETS.contains leaf.ttype then { bt with depth := bt.depth + 1 }
  else if CLOSING_BRACKETS.contains leaf.ttype then { bt with depth := bt.depth - 1 }
  else bt

def BracketTracker.any_open_brackets (bt : BracketTracker) : Bool :=
  bt.depth ≠ 0

/-- Python `max(self.delimiters.values(), default=0)`. -/
def BracketTracker.max_delimiter_priority (bt : BracketTracker) : Nat :=
  (bt.delimiters.map Prod.snd).foldl max 0

/-- Number of delimiters recorded with the given priority. -/
def BracketTracker.delimiter_count_with_priority (bt : BracketTracker) (priority : Nat) : Nat :=
  (bt.delimiters.filter (fun kv => kv.snd = priority)).length

def BracketTracker.get_open_lsqb (bt : BracketTracker) : Option Nat :=
  bt.open_lsqb

/-- Modelled from the spec: `is_type_comment(leaf, suffix)` of the external
nodes module — a comment whose content matches the `# type:` pattern (plus an
optional suffix such as `" ignore"`). -/
def is_type_comment (leaf : Leaf) (suffix : String := "") : Bool :=
  (leaf.ttype = token.COMMENT || leaf.ttype = STANDALONE_COMMENT) &&
    startsWithChars ("# type:" ++ suffix).toList leaf.value.toList

/-- Modelled from the spec: whether a string literal is multi-line
(triple-quote delimited and containing raw newlines). -/
def is_multiline_string (leaf : Leaf) : Bool :=
  leaf.ttype = token.STRING &&
    (startsWithChars [Char.ofNat 34, Char.ofNat 34, Char.ofNat 34] leaf.value.toList ||
      startsWithChars [Char.ofNat 39, Char.ofNat 39, Char.ofNat 39] leaf.value.toList) &&
    containsChar leaf.value '\n'

/-- Modelled from the spec: `is_one_sequence_between(opening, closing, leaves)`
of the external nodes module — the bracketed content spans exactly one
comma-free element, that is, fewer than two commas appear at the bracket's own
nesting level among the leaves strictly between the opening bracket (located
by identity) and the closing one.  The bracket-kind parameter of the original
only guides depth bookkeeping the model reads off `bracketDepth` directly. -/
def is_one_sequence_between (openingId : Nat) (closing : Leaf) (leaves : List Leaf) : Bool :=
  let d := closing.bracketDepth + 1
  let after := (leaves.dropWhile (fun l => l.lid ≠ openingId)).drop 1
  let between := after.takeWhile (fun l => l.lid ≠ closing.lid)
  (between.countP (fun l => l.bracketDepth = d && l.ttype = token.COMMA)) < 2

/-- Modelled from the spec: the consistent whitespace the external
`whitespace(leaf, complex_subscript)` recomputes for a token appended
mid-line.  Its exact text is decided by the external nodes module and is
immaterial to every claim below; it is modelled as a single space. -/
def whitespace (leaf : Leaf) (complex_subscript : Bool) : String :=
  if leaf.ttype = 0 ∧ complex_subscript then " " else " "

/-- Length of the pragma keyword alternative matched by `_PRAGMA_REGEX` at
this position (after `"# "`): `pylint:`, `pytype:`, `noqa:`, or `type:`
followed—after optional spaces—by `ignore` (the regex lookahead). -/
def pragmaKeywordLen (cs : List Char) : Option Nat :=
  if startsWithChars "pylint:".toList cs then some 7
  else if startsWithChars "pytype:".toList cs then some 7
  else if startsWithChars "noqa:".toList cs then some 5
  else if startsWithChars "type:".toList cs then
    if startsWithChars "ignore".toList ((cs.drop 5).dropWhile (· = ' ')) then some 5 else none
  else none

/-- Whether `_PRAGMA_REGEX` (` *# (?:pylint|pytype|noqa|type(?=: *ignore)):`)
matches starting exactly at this position: a maximal run of spaces, then
`"# "`, then a recognized pragma keyword and its colon. -/
def pragmaMatchAt (cs : List Char) : Bool :=
  let sp := (cs.takeWhile (· = ' ')).length
  match cs.drop sp with
  | '#' :: ' ' :: tail => (pragmaKeywordLen tail).isSome
  | _ => false

/-- Index of the leftmost `_PRAGMA_REGEX` match (the length of `parts[0]` of
`_PRAGMA_REGEX.split(s, maxsplit=1)`), `none` when the regex does not match. -/
def findPragmaStart : List Char → Option Nat
  | [] => none
  | c :: t => if pragmaMatchAt (c :: t) then some 0 else (findPragmaStart t).map (· + 1)

/-- Python `comments.setdefault(key, []).append(c)` on the insertion-ordered
comment map. -/
def commentsSetdefaultAppend (m : List (Nat × List Leaf)) (k : Nat) (c : Leaf) :
    List (Nat × List Leaf) :=
  match m with
  | [] => [(k, [c])]
  | (k2, cs) :: rest =>
    if k2 = k then (k2, cs ++ [c]) :: rest
    else (k2, cs) :: commentsSetdefaultAppend rest k c

/-- Python `comments.setdefault(key, []).extend(cs)`; like Python, this
creates the key even when the extension is empty. -/
def commentsSetdefaultExtend (m : List (Nat × List Leaf)) (k : Nat) (new : List Leaf) :
    List (Nat × List Leaf) :=
  match m with
  | [] => [(k, new)]
  | (k2, cs) :: rest =>
    if k2 = k then (k2, cs ++ new) :: rest
    else (k2, cs) :: commentsSetdefaultExtend rest k new

/-- The central mutable entity of the engine (`Line` of `lines.py`): an
ordered buffer of leaves, the identity-keyed insertion-ordered comment map, a
bracket tracker scoped to the line, and the continuation/split flags.

A state whose comment map is non-empty while the leaf buffer is empty makes
several source predicates raise `IndexError`; such states are unreachable
(comments only attach to existing leaves) and the corresponding predicates
are modelled as `false` there. -/
structure Line where
  mode : Mode
  depth : List Indent := []
  leaves : List Leaf := []
  comments : List (Nat × List Leaf) := []
  bracket_tracker : BracketTracker := {}
  inside_brackets : Bool := false
  should_split_rhs : Bool := false
  magic_trailing_comma : Option Leaf := none
deriving Repr, DecidableEq

/-- Python `bool(line)`: the line has leaves or comments. -/
def Line.toBool (self : Line) : Bool :=
  !self.leaves.isEmpty || !self.comments.isEmpty

def Line.render_indent_chars (self : Line) (for_width_calculation : Bool := false) : String :=
  renderIndents self.depth for_width_calculation

/-- Total display width of this line's indentation (external indent module). -/
def Line.calc_total_indent_width (self : Line) : Nat :=
  (renderIndents self.depth true).length

/-- Is this line a standalone comment? -/
def Line.is_comment (self : Line) : Bool :=
  match self.leaves with
  | [l] => l.ttype = STANDALONE_COMMENT
  | _ => false

/-- Is this line a decorator? -/
def Line.is_decorator (self : Line) : Bool :=
  match self.leaves with
  | first :: _ => first.ttype = token.AT
  | [] => false

/-- Is this an import line? -/
def Line.is_import (self : Line) : Bool :=
  match self.leaves with
  | first :: _ => first.isImportStmt
  | [] => false

/-- Is this a `with` / `async with` statement line? -/
def Line.is_with_or_async_with_stmt (self : Line) : Bool :=
  match self.leaves with
  | first :: _ => first.withStmtRoot
  | [] => false

/-- Is this line a class definition? -/
def Line.is_class (self : Line) : Bool :=
  match self.leaves with
  | first :: _ => first.ttype = token.NAME && first.value = "class"
  | [] => false

/-- Is this line a class definition whose body is only `...` (its trailing
three leaves compare equal to dot leaves, Python `Leaf` equality being
(type, value))? -/
def Line.is_stub_class (self : Line) : Bool :=
  self.is_class &&
    (let t := self.leaves.reverse.take 3
     t.length = 3 && t.all (fun l => l.ttype = token.DOT && l.value = "."))

/-- Is this a function definition (also true for async defs)? -/
def Line.is_def (self : Line) : Bool :=
  match self.leaves with
  | [] => false
  | [first] => first.ttype = token.NAME && first.value = "def"
  | first :: second :: _ =>
    (first.ttype = token.NAME && first.value = "def") ||
      (first.ttype = token.ASYNC && second.ttype = token.NAME && second.value = "def")

/-- Is this a class with no base classes but using parentheses? -/
def Line.is_class_paren_empty (self : Line) : Bool :=
  self.toBool && self.leaves.length = 4 && self.is_class &&
    (match self.leaves[2]? with
     | some l => l.ttype = token.LPAR && l.value = "("
     | none => false) &&
    (match self.leaves[3]? with
     | some l => l.ttype = token.RPAR && l.value = ")"
     | none => false)

/-- Is the line a triple quoted string? -/
def Line.is_triple_quoted_string (self : Line) : Bool :=
  match self.leaves with
  | first :: _ =>
    first.ttype = token.STRING &&
      (startsWithChars [Char.ofNat 34, Char.ofNat 34, Char.ofNat 34] first.value.toList ||
        startsWithChars [Char.ofNat 39, Char.ofNat 39, Char.ofNat 39] first.value.toList)
  | [] => false

/-- Does this line open a new level of indentation (last leaf a colon)? -/
def Line.opens_block (self : Line) : Bool :=
  match self.leaves.getLast? with
  | some l => l.ttype = token.COLON
  | none => false

/-- Is this line converted from fmt off/skip code?  The recorded original
first leaf is carried as its `is_import` classification, the only matcher the
verified file applies (`first_leaf_matches=is_import`). -/
def Line.is_fmt_pass_converted (self : Line)
    (first_leaf_matches : Option (Bool → Bool) := none) : Bool :=
  match self.leaves with
  | [leaf] =>
    if leaf.ttype ≠ STANDALONE_COMMENT then false
    else
      match leaf.fmtPassFirstImport with
      | none => false
      | some isImp =>
        match first_leaf_matches with
        | none => true
        | some f => f isImp
  | _ => false

/-- True if a standalone-comment leaf exists at or below the given bracket
depth. -/
def Line.contains_standalone_comments (self : Line)
    (depth_limit : Nat := 9223372036854775807) : Bool :=
  self.leaves.any (fun leaf =>
    leaf.ttype = STANDALONE_COMMENT && decide (leaf.bracketDepth ≤ depth_limit))

/-- Comments that should appear directly after `leaf` (identity lookup). -/
def Line.comments_after (self : Line) (leaf : Leaf) : List Leaf :=
  (self.comments.lookup leaf.lid).getD []

/-- Sum, over the comments attached to the line's last leaf, of
`len(parts[1]) + len(parts[2])` of `_PRAGMA_REGEX.split(str(comment),
maxsplit=1)` — the length of the comment's text from the start of the matched
pragma marker (marker included) onward. -/
def Line.trailing_pragma_comment_length (self : Line) : Nat :=
  match self.leaves.getLast? with
  | none => 0
  | some last_leaf =>
    (self.comments_after last_leaf).foldl
      (fun length comment =>
        let cs := (leafStr comment).toList
        match findPragmaStart cs with
        | some s => length + (cs.length - s)
        | none => length)
      0

def Line.contains_multiline_strings (self : Line) : Bool :=
  self.leaves.any is_multiline_string

/-- Return True if we have a magic trailing comma for the candidate closing
bracket: there is a trailing comma, it is not a one-tuple, and it is not a
single-element subscript; with `ensure_removable`, additionally not from
single-element square-bracket indexing. -/
def Line.has_magic_trailing_comma (self : Line) (closing : Leaf)
    (ensure_removable : Bool := false) : Bool :=
  if ¬ (CLOSING_BRACKETS.contains closing.ttype ∧ self.leaves ≠ [] ∧
        (self.leaves.getLast?.map Leaf.ttype = some token.COMMA)) then
    false
  else if closing.ttype = token.RBRACE then
    true
  else if closing.ttype = token.RSQB then
    if (closing.parentType = some syms.trailer) ∧ closing.openingBracketId.isSome ∧
        is_one_sequence_between (closing.openingBracketId.getD 0) closing self.leaves then
      false
    else if ¬ ensure_removable then
      true
    else
      match self.leaves.getLast? with
      | none => false
      | some comma =>
        match comma.parentType with
        | none => false
        | some pt =>
          decide (pt ≠ syms.subscriptlist) || closing.openingBracketId.isNone ||
            !is_one_sequence_between (closing.openingBracketId.getD 0) closing self.leaves
  else if self.is_import then
    true
  else if closing.openingBracketId.isSome ∧
      ¬ is_one_sequence_between (closing.openingBracketId.getD 0) closing self.leaves then
    true
  else
    false

/-- Add an inline or standalone comment to the line.  Returns whether the
comment was attached, the (possibly retyped) comment, and the updated line —
Python mutates the comment leaf and the comment map in place. -/
def Line.append_comment (self : Line) (comment : Leaf) : Bool × Leaf × Line :=
  if comment.ttype = STANDALONE_COMMENT ∧ self.bracket_tracker.any_open_brackets then
    (false, { comment with pfx := "" }, self)
  else if comment.ttype ≠ token.COMMENT then
    (false, comment, self)
  else
    match self.leaves.getLast? with
    | none => (false, { comment with ttype := STANDALONE_COMMENT, pfx := "" }, self)
    | some last_leaf =>
      if last_leaf.ttype = token.RPAR ∧ last_leaf.value = "" ∧
          last_leaf.parentType.isSome ∧ last_leaf.parentNLeaves ≤ 3 ∧
          ¬ is_type_comment comment then
        if self.leaves.length < 2 then
          (false, { comment with ttype := STANDALONE_COMMENT, pfx := "" }, self)
        else
          let target := (self.leaves[self.leaves.length - 2]?).getD last_leaf
          (true, comment,
            { self with comments := commentsSetdefaultAppend self.comments target.lid comment })
      else
        (true, comment,
          { self with comments := commentsSetdefaultAppend self.comments last_leaf.lid comment })

/-- Remove the trailing comma and move the comments attached to it onto the
new last leaf.  The source indexes `leaves[-1]` unguardedly; the empty cases
are unreachable under its protocol and modelled as the identity. -/
def Line.remove_trailing_comma (self : Line) : Line :=
  match self.leaves.getLast? with
  | none => self
  | some trailing =>
    let rest := self.leaves.dropLast
    let trailing_comments := (self.comments.lookup trailing.lid).getD []
    let comments := self.comments.filter (fun kv => kv.fst ≠ trailing.lid)
    match rest.getLast? with
    | none => self
    | some new_last =>
      { self with
        leaves := rest
        comments := commentsSetdefaultExtend comments new_last.lid trailing_comments }

/-- True iff `leaf` is part of a slice with non-trivial expressions: false
when no square bracket is open; otherwise the external tree walk over the
subscript, carried as the leaf's precomputed `complexSubscript` flag
(Modelled from the spec). -/
def Line.is_complex_subscript (self : Line) (leaf : Leaf) : Bool :=
  match self.bracket_tracker.get_open_lsqb with
  | none => false
  | some _ => leaf.complexSubscript

/-- The class-header cleanup statement of `append`: a colon completing an
empty-parenthesized class header first removes the two paren leaves. -/
def Line.appendColonCleanup (self : Line) (leaf : Leaf) : Line :=
  if leaf.ttype = token.COLON ∧ self.is_class_paren_empty then
    { self with leaves := self.leaves.dropLast.dropLast }
  else self

/-- The whitespace-prefix statement of `append`: unless preformatted, a leaf
joining a populated line receives a recomputed consistent prefix. -/
def Line.appendWhitespace (self : Line) (leaf : Leaf) (preformatted : Bool) : Leaf :=
  if self.leaves ≠ [] ∧ ¬ preformatted then
    { leaf with pfx := leaf.pfx ++ whitespace leaf (self.is_complex_subscript leaf) }
  else leaf

/-- The bracket-tracking / magic-trailing-comma statements of `append`. -/
def Line.appendTrackBracket (self : Line) (leaf : Leaf)
    (preformatted track_bracket : Bool) : Line :=
  if self.inside_brackets ∨ ¬ preformatted ∨ track_bracket then
    let self := { self with bracket_tracker := self.bracket_tracker.mark leaf }
    if self.mode.magic_trailing_comma then
      if self.has_magic_trailing_comma leaf then
        { self with magic_trailing_comma := some leaf }
      else self
    else if self.has_magic_trailing_comma leaf true then
      self.remove_trailing_comma
    else self
  else self

/-- Add a new leaf to the end of the line (`Line.append`). -/
def Line.append (self : Line) (leaf : Leaf) (preformatted : Bool := false)
    (track_bracket : Bool := false) : Line :=
  let has_value := BRACKETS.contains leaf.ttype || pyStrip leaf.value ≠ ""
  if ¬ has_value then self
  else
    let self := self.appendColonCleanup leaf
    let leaf := self.appendWhitespace leaf preformatted
    let self := self.appendTrackBracket leaf preformatted track_bracket
    match self.append_comment leaf with
    | (true, _, self) => self
    | (false, leaf, self) => { self with leaves := self.leaves ++ [leaf] }

/-- Like `append` but disallow invalid standalone comment structure: raises
`ValueError` (modelled as `Except.error`) when any leaf is appended to a line
that is a standalone comment, or a standalone comment is appended to a
populated line, in both cases only while no bracket is open. -/
def Line.append_safe (self : Line) (leaf : Leaf) (preformatted : Bool := false) :
    Except String Line :=
  if self.bracket_tracker.depth = 0 then
    if self.is_comment then
      Except.error "cannot append to standalone comments"
    else if self.leaves ≠ [] ∧ leaf.ttype = STANDALONE_COMMENT then
      Except.error "cannot append standalone comments to a populated line"
    else
      Except.ok (self.append leaf preformatted)
  else
    Except.ok (self.append leaf preformatted)

/-- Enumeration of leaves with their rendered length (prefix, text, and the
attached comments' text), stopping prematurely at a leaf whose value holds an
embedded newline. -/
def enumerateWithLengthAux (self : Line) : List (Nat × Leaf) → List (Nat × Leaf × Nat)
  | [] => []
  | (i, leaf) :: rest =>
    if containsChar leaf.value '\n' then []
    else
      let length := leaf.pfx.length + leaf.value.length +
        ((self.comments_after leaf).map (fun c => c.value.length)).sum
      (i, leaf, length) :: enumerateWithLengthAux self rest

def Line.enumerate_with_length (self : Line) (rev : Bool := false) :
    List (Nat × Leaf × Nat) :=
  enumerateWithLengthAux self (if rev then self.leaves.enum.reverse else self.leaves.enum)

/-- A new empty line sharing mode, depth and flags (`Line.clone`). -/
def Line.clone (self : Line) : Line :=
  { mode := self.mode
    depth := self.depth
    inside_brackets := self.inside_brackets
    should_split_rhs := self.should_split_rhs
    magic_trailing_comma := self.magic_trailing_comma }

/-- Render the line (`Line._str_inner`): indentation, the first leaf's prefix
and text, every remaining leaf, then every attached comment in comment-map
insertion order, and a final newline; an empty line renders as a newline. -/
def Line.str_inner (self : Line) (for_width_calculation : Bool) : String :=
  match self.leaves with
  | [] => "\n"
  | first :: rest =>
    let indent := renderIndents self.depth for_width_calculation
    let res := first.pfx ++ indent ++ first.value
    let res := rest.foldl (fun r leaf => r ++ leafStr leaf) res
    let res := (self.comments.map Prod.snd).foldl
      (fun r cs => cs.foldl (fun r c => r ++ leafStr c) r) res
    res ++ "\n"

def Line.render_as_str_for_width_calculation (self : Line) : String :=
  self.str_inner true

/-- Python `str(line)`. -/
def Line.toStr (self : Line) : String :=
  self.str_inner false

/-- String representation of the line with surrounding newlines stripped. -/
def line_to_string (line : Line) : String :=
  pyStripChar line.toStr '\n'

/-- Intermediate split result from a right hand split. -/
structure RHSResult where
  head : Line
  body : Line
  tail : Line
  opening_bracket : Leaf
  closing_bracket : Leaf
deriving Repr, DecidableEq

/-- State of the multi-line-string walk of `is_line_short_enough`: the
per-depth comma counts, the multi-line-string leaf once seen, the identities
of the tree contexts containing it, and the depth cap (`none` standing for
the initial `math.inf`). -/
structure MLSState where
  commas : List Nat
  mls : Option Leaf
  ctxs : List Nat
  maxLevel : Option Nat
deriving Repr, DecidableEq

/-- Identities of the multi-line-string leaf and its ancestors whose rendered
text still occurs in the rendered line (the `while str(ctx) in line_str` walk
over the external tree, read off the leaf's precomputed ancestor chain). -/
def mlsContextsOf (leaf : Leaf) (line_str : String) : List Nat :=
  (((leaf.lid, leafStr leaf) :: leaf.ancestors).takeWhile
    (fun p => containsSub p.snd line_str)).map Prod.fst

/-- One iteration of the multi-line-string walk; `none` models the loop's
early `return False`. -/
def mlsStep (line_str : String) (total i : Nat) (leaf : Leaf) (st : MLSState) :
    Option MLSState :=
  let p1 : Option MLSState :=
    match st.maxLevel with
    | some _ => some st
    | none =>
      if leaf.bracketDepth + 1 > st.commas.length then
        some { st with commas := st.commas ++ [0] }
      else if leaf.bracketDepth + 1 < st.commas.length then
        let had_comma := st.commas.getLastD 0
        let commas := st.commas.dropLast
        match st.mls with
        | some m =>
          if m.bracketDepth = leaf.bracketDepth + 1 then
            if had_comma > 0 then none
            else some { st with commas := commas, maxLevel := some leaf.bracketDepth }
          else some { st with commas := commas }
        | none => some { st with commas := commas }
      else some st
  match p1 with
  | none => none
  | some st =>
    let st :=
      if (match st.maxLevel with
          | none => true
          | some m => decide (leaf.bracketDepth ≤ m)) && leaf.ttype = token.COMMA then
        let ignored := (match leaf.prevSiblingId with
          | none => true
          | some s => st.ctxs.contains s)
        if !(ignored && i = total - 1) then
          { st with commas :=
              st.commas.set leaf.bracketDepth ((st.commas.getD leaf.bracketDepth 0) + 1) }
        else st
      else st
    let st :=
      match st.maxLevel with
      | none => st
      | some m => { st with maxLevel := some (min m leaf.bracketDepth) }
    if is_multiline_string leaf then
      if !st.ctxs.isEmpty then none
      else some { st with mls := some leaf, ctxs := mlsContextsOf leaf line_str }
    else some st

/-- The multi-line-string walk over all leaves. -/
def mlsFold (line_str : String) (total : Nat) :
    List (Nat × Leaf) → MLSState → Option MLSState
  | [], st => some st
  | (i, leaf) :: rest, st =>
    match mlsStep line_str total i leaf st with
    | none => none
    | some st2 => mlsFold line_str total rest st2

/-- For non-multiline strings, return True if the line is no longer than the
width budget; for multiline strings, examine the context around the line to
determine whether it can stay inline (`is_line_short_enough`). -/
def is_line_short_enough (line : Line) (mode : Mode) (line_str : String := "") : Bool :=
  let line_str := if line_str = "" then line_to_string line else line_str
  let line_str :=
    if mode.use_tabs then pyStripChar line.render_as_str_for_width_calculation '\n'
    else line_str
  let width : String → Nat := fun s => if mode.preview then str_width s else s.length
  let effective_length : Int :=
    if mode.wrap_pragma_comments then (width line_str : Int)
    else (width line_str : Int) - (line.trailing_pragma_comment_length : Int)
  if ¬ mode.multiline_string_handling then
    decide (effective_length ≤ (mode.line_length : Int)) &&
      !containsChar line_str '\n' &&
      !line.contains_standalone_comments
  else if line.contains_standalone_comments then false
  else if ¬ containsChar line_str '\n' then
    decide (effective_length ≤ (mode.line_length : Int))
  else
    let parts := (splitChar '\n' line_str.toList).map String.mk
    let first := parts.headD ""
    let last := parts.getLastD ""
    if width first > mode.line_length || width last > mode.line_length then false
    else
      match mlsFold line_str line.leaves.length line.leaves.enum ⟨[], none, [], none⟩ with
      | none => false
      | some st => if st.ctxs.isEmpty then true else st.commas.all (· = 0)

/-- Scan of `_can_omit_opening_paren`: returns whether the loop `break`-ed and
one past the index of the last enumerated leaf. -/
def omitOpeningScan (line_length : Nat) (firstId : Nat) :
    List (Nat × Leaf × Nat) → Bool → Nat → Nat → Bool × Nat
  | [], _, _, idxp1 => (false, idxp1)
  | (i, leaf, leaf_length) :: rest, remainder, length, _ =>
    let remainder :=
      if CLOSING_BRACKETS.contains leaf.ttype && leaf.openingBracketId = some firstId then
        true
      else remainder
    if remainder then
      let length := length + leaf_length
      if length > line_length then (true, i + 1)
      else
        let remainder := if OPENING_BRACKETS.contains leaf.ttype then false else remainder
        omitOpeningScan line_length firstId rest remainder length (i + 1)
    else omitOpeningScan line_length firstId rest remainder length (i + 1)

/-- See `can_omit_invisible_parens`: forward width-accumulation scan from the
leading bracket's matching close. -/
def _can_omit_opening_paren (line : Line) (first : Leaf) (line_length : Nat) : Bool :=
  let r := omitOpeningScan line_length first.lid line.enumerate_with_length false
    line.calc_total_indent_width 0
  if r.fst then false else line.leaves.length = r.snd

/-- Scan of `_can_omit_closing_paren`. -/
def omitClosingScan (line_length : Nat) (openingId : Option Nat) :
    List (Nat × Leaf × Nat) → Nat → Bool → Bool
  | [], _, _ => false
  | (_, leaf, leaf_length) :: rest, length, seen_other_brackets =>
    let length := length + leaf_length
    if openingId = some leaf.lid then
      if seen_other_brackets || length ≤ line_length then true
      else omitClosingScan line_length openingId rest length seen_other_brackets
    else
      let seen_other_brackets :=
        if OPENING_BRACKETS.contains leaf.ttype then true else seen_other_brackets
      omitClosingScan line_length openingId rest length seen_other_brackets

/-- See `can_omit_invisible_parens`: backward-symmetric width-accumulation
scan from line start to the trailing bracket's open. -/
def _can_omit_closing_paren (line : Line) (last : Leaf) (line_length : Nat) : Bool :=
  omitClosingScan line_length last.openingBracketId line.enumerate_with_length
    line.calc_total_indent_width false

/-- Does `rhs.body` have a shape safe to reformat without optional parens
around it? -/
def can_omit_invisible_parens (rhs : RHSResult) (line_length : Nat) : Bool :=
  let line := rhs.body
  let bt := line.bracket_tracker
  if bt.delimiters.isEmpty then true
  else
    let max_priority := bt.max_delimiter_priority
    let delimiter_count := bt.delimiter_count_with_priority max_priority
    if delimiter_count > 1 then false
    else if delimiter_count = 1 &&
        line.mode.wrap_multiple_context_managers_in_parens &&
        max_priority = COMMA_PRIORITY &&
        rhs.head.is_with_or_async_with_stmt then
      false
    else if max_priority = DOT_PRIORITY then true
    else
      match line.leaves with
      | first :: second :: _ =>
        let from_opening : Bool :=
          if OPENING_BRACKETS.contains first.ttype &&
              !CLOSING_BRACKETS.contains second.ttype then
            _can_omit_opening_paren line first line_length
          else false
        if from_opening then true
        else
          match line.leaves.dropLast.getLast?, line.leaves.getLast? with
          | some penultimate, some last =>
            if last.ttype = token.RPAR || last.ttype = token.RBRACE ||
                (last.ttype = token.RSQB && last.parentType.isSome &&
                  !(last.parentType = some syms.trailer)) then
              if OPENING_BRACKETS.contains penultimate.ttype then false
              else if is_multiline_string first then true
              else _can_omit_closing_paren line last line_length
            else false
          | _, _ => false
      | _ => false

/-- Information about a block of formatted lines: blank lines before, the
content, blank lines after, and a back-reference to the previous block.
Python `int` counts may be negative after the tracker's subtraction, hence
`Int`. -/
inductive LinesBlock : Type where
  | mk (mode : Mode) (previous_block : Option LinesBlock) (original_line : Line)
      (before : Int) (content_lines : List String) (after : Int) : LinesBlock

def LinesBlock.mode : LinesBlock → Mode
  | .mk m _ _ _ _ _ => m

def LinesBlock.previous_block : LinesBlock → Option LinesBlock
  | .mk _ p _ _ _ _ => p

def LinesBlock.original_line : LinesBlock → Line
  | .mk _ _ o _ _ _ => o

def LinesBlock.before : LinesBlock → Int
  | .mk _ _ _ b _ _ => b

def LinesBlock.content_lines : LinesBlock → List String
  | .mk _ _ _ _ c _ => c

def LinesBlock.after : LinesBlock → Int
  | .mk _ _ _ _ _ a => a

/-- The block with its blank-lines-before count replaced (the source mutates
the field in place). -/
def LinesBlock.withBefore : LinesBlock → Int → LinesBlock
  | .mk m p o _ c a, b => .mk m p o b c a

/-- Python `"s" * n` (empty for non-positive counts). -/
def strRepeat (s : String) : Int → String
  | .ofNat n => String.join (List.replicate n s)
  | .negSucc _ => ""

/-- Rendering of the block: the blank lines before, the content lines, the
blank lines after (`LinesBlock.all_lines`). -/
def LinesBlock.all_lines (self : LinesBlock) : List String :=
  let empty_line := (Line.mk self.mode [] [] [] {} false false none).toStr
  [strRepeat empty_line self.before] ++ self.content_lines ++ [strRepeat empty_line self.after]

/-- Stateful tracker of the blank lines needed before and after the line
being processed (`EmptyLineTracker`). -/
structure EmptyLineTracker where
  mode : Mode
  previous_line : Option Line := none
  previous_block : Option LinesBlock := none
  previous_defs : List Line := []
  semantic_leading_comment : Option LinesBlock := none

/-- The line with its first leaf's whitespace prefix cleared (the source's
`first_leaf.prefix = ""` consumption of leading newlines). -/
def clearFirstPfx (l : Line) : Line :=
  match l.leaves with
  | [] => l
  | first :: rest => { l with leaves := { first with pfx := "" } :: rest }

/-- Body of the definition-stack `while` loop of `_maybe_empty_lines`: the
`before` count the pop of `top` produces.  In stub mode the source asserts a
previous line exists; the unreachable `none` case keeps `before`.  The
source's unguarded `leaves[-1]` / `leaves[0]` reads are modelled over
`getLast?` / `head?` (an empty current line there would raise). -/
def popDefsBefore (mode : Mode) (previous_line : Option Line) (current_line : Line)
    (top : Line) (before : Int) : Int :=
  if mode.is_pyi then
    match previous_line with
    | none => before
    | some pl =>
      if current_line.depth ≠ [] ∧ ¬ current_line.is_def ∧ pl.is_def then
        min 1 before
      else if mode.blank_line_after_nested_stub_class ∧ top.is_class ∧
          ¬ top.is_stub_class then
        1
      else if current_line.depth ≠ [] then 0
      else 1
  else
    if current_line.depth ≠ [] then 1
    else if top.depth ≠ [] ∧
        ((current_line.leaves.getLast?).any (fun l => l.ttype = token.COLON)) ∧
        ((current_line.leaves.head?).any
          (fun l => l.value ∉ ["with", "try", "for", "while", "if", "match"])) then
      1
    else 2

/-- The definition-stack `while` loop of `_maybe_empty_lines`, on the stack
reversed (top of stack first); returns the final `before` and the remaining
reversed stack. -/
def popDefsLoop (mode : Mode) (previous_line : Option Line) (current_line : Line) :
    List Line → Int → Int × List Line
  | [], before => (before, [])
  | top :: rest, before =>
    if top.depth.length ≥ current_line.depth.length then
      popDefsLoop mode previous_line current_line rest
        (popDefsBefore mode previous_line current_line top before)
    else (before, top :: rest)

/-- Result of `_maybe_empty_lines`: the `(before, after)` pair together with
the state the source updates in place (the prefix-cleared current line, the
definition stack, and the possibly hoist-adjusted semantic leading comment
block). -/
structure MELResult where
  before : Int
  after : Int
  line : Line
  defs : List Line
  slc : Option LinesBlock

/-- The class/def spacing sub-procedure
(`__maybe_empty_lines_for_class_or_def`), returning `(newlines, after)`, the
updated definition stack, and the possibly hoist-adjusted semantic leading
comment block (the source mutates that block's `before` in place). -/
def EmptyLineTracker._maybe_empty_lines_for_class_or_def (self : EmptyLineTracker)
    (current_line : Line) (before : Int) (defsIn : List Line) :
    Int × Int × List Line × Option LinesBlock :=
  let previous_defs :=
    if ¬ current_line.is_decorator then defsIn ++ [current_line] else defsIn
  let slc0 := self.semantic_leading_comment
  match self.previous_line with
  | none => (0, 0, previous_defs, slc0)
  | some previous_line =>
    if previous_line.is_decorator then
      if self.mode.is_pyi ∧ current_line.is_stub_class then (0, 1, previous_defs, slc0)
      else (0, 0, previous_defs, slc0)
    else if previous_line.depth.length < current_line.depth.length ∧
        (previous_line.is_class ∨ previous_line.is_def) then
      (0, 0, previous_defs, slc0)
    else
      let commentCase : Bool :=
        previous_line.is_comment &&
          previous_line.depth.length = current_line.depth.length && before = 0
      let slcGood : Bool :=
        match slc0 with
        | none => false
        | some slcB =>
          match slcB.previous_block with
          | none => false
          | some pb =>
            !pb.original_line.is_class && !pb.original_line.opens_block &&
              decide (slcB.before ≤ 1)
      if commentCase ∧ ¬ slcGood then (0, 0, previous_defs, slc0)
      else
        let ctan : Option LinesBlock := if commentCase then slc0 else none
        let newlines : Int :=
          if self.mode.is_pyi then
            if current_line.is_class ∨ previous_line.is_class then
              if previous_line.depth.length < current_line.depth.length then 0
              else if previous_line.depth.length > current_line.depth.length then 1
              else if current_line.is_stub_class ∧ previous_line.is_stub_class then 0
              else 1
            else if (current_line.is_def ∨ current_line.is_decorator) ∧
                ¬ previous_line.is_def then
              if current_line.depth ≠ [] then min 1 before else 1
            else if previous_line.depth.length > current_line.depth.length then 1
            else 0
          else if current_line.depth ≠ [] then 1
          else 2
        match ctan with
        | some slcB =>
          match slcB.previous_block with
          | some pb =>
            (0, 0, previous_defs, some (slcB.withBefore (max slcB.before newlines - pb.after)))
          | none => (newlines, 0, previous_defs, slc0)
        | none => (newlines, 0, previous_defs, slc0)

/-- The raw blank-line computation (`_maybe_empty_lines`): consume the first
leaf's leading newlines (capped at 2 at top level, 1 when nested or in stub
mode), pop the definition stack, then dispatch on the line kind. -/
def EmptyLineTracker._maybe_empty_lines (self : EmptyLineTracker)
    (current_line : Line) : MELResult :=
  let max_allowed : Int :=
    if current_line.depth.length = 0 then (if self.mode.is_pyi then 1 else 2) else 1
  let before : Int :=
    match current_line.leaves with
    | first :: _ => min (countChar first.pfx '\n' : Int) max_allowed
    | [] => 0
  let current_line := clearFirstPfx current_line
  let popped := popDefsLoop self.mode self.previous_line current_line
    self.previous_defs.reverse before
  let before := popped.fst
  let previous_defs := popped.snd.reverse
  if current_line.is_decorator ∨ current_line.is_def ∨ current_line.is_class then
    let r := self._maybe_empty_lines_for_class_or_def current_line before previous_defs
    ⟨r.1, r.2.1, current_line, r.2.2.1, r.2.2.2⟩
  else
    match self.previous_line with
    | some pl =>
      if pl.is_import ∧ ¬ current_line.is_import ∧
          ¬ current_line.is_fmt_pass_converted (some id) ∧
          current_line.depth.length = pl.depth.length then
        ⟨if before = 0 then 1 else before, 0, current_line, previous_defs,
          self.semantic_leading_comment⟩
      else if pl.is_class ∧ current_line.is_triple_quoted_string then
        ⟨before, 1, current_line, previous_defs, self.semantic_leading_comment⟩
      else if pl.opens_block then
        ⟨0, 0, current_line, previous_defs, self.semantic_leading_comment⟩
      else
        ⟨before, 0, current_line, previous_defs, self.semantic_leading_comment⟩
    | none =>
      ⟨before, 0, current_line, previous_defs, self.semantic_leading_comment⟩

/-- The number of extra empty lines before and after the current line
(`maybe_empty_lines`): never insert blank lines at the start of the file,
subtract the blank lines already emitted after the previous block, build the
block, and maintain the semantic-leading-comment state. -/
def EmptyLineTracker.maybe_empty_lines (self : EmptyLineTracker) (current_line : Line) :
    LinesBlock × EmptyLineTracker :=
  let r := self._maybe_empty_lines current_line
  let current_line := r.line
  let previous_after : Int :=
    match self.previous_block with
    | some b => b.after
    | none => 0
  let before : Int :=
    match self.previous_line with
    | none => 0
    | some _ => r.before - previous_after
  let block : LinesBlock := .mk self.mode self.previous_block current_line before [] r.after
  let slc : Option LinesBlock :=
    if current_line.is_comment then
      match self.previous_line with
      | none => some block
      | some pl =>
        if ¬ pl.is_decorator ∧ (¬ pl.is_comment ∨ before ≠ 0) ∧
            (r.slc.isNone ∨ before ≠ 0) then
          some block
        else r.slc
    else if ¬ current_line.is_decorator ∨ before ≠ 0 then none
    else r.slc
  (block,
    { mode := self.mode
      previous_line := some current_line
      previous_block := some block
      previous_defs := r.defs
      semantic_leading_comment := slc })

/-! Concrete fixtures used by the theorems below to evaluate the verified
definitions on the spec's worked examples. -/

/-- Configuration with the model's defaults (88-column budget). -/
def exMode : Mode := {}

/-- The subscript line `x[a` followed by the trailing comma of `x[a,]`. -/
def exSub1Line : Line :=
  { mode := exMode
    leaves := [
      { ttype := token.NAME, value := "x", lid := 1 },
      { ttype := token.LSQB, value := "[", lid := 2 },
      { ttype := token.NAME, value := "a", lid := 3, bracketDepth := 1 },
      { ttype := token.COMMA, value := ",", lid := 4, bracketDepth := 1,
        parentType := some syms.subscriptlist } ] }

/-- The closing `]` of the one-element subscript `x[a,]`. -/
def exSub1Closing : Leaf :=
  { ttype := token.RSQB, value := "]", lid := 5,
    parentType := some syms.trailer, openingBracketId := some 2 }

/-- The subscript line `x[a, b` followed by the trailing comma of `x[a, b,]`. -/
def exSub2Line : Line :=
  { mode := exMode
    leaves := [
      { ttype := token.NAME, value := "x", lid := 1 },
      { ttype := token.LSQB, value := "[", lid := 2 },
      { ttype := token.NAME, value := "a", lid := 3, bracketDepth := 1 },
      { ttype := token.COMMA, value := ",", lid := 4, bracketDepth := 1,
        parentType := some syms.subscriptlist },
      { ttype := token.NAME, value := "b", lid := 5, bracketDepth := 1 },
      { ttype := token.COMMA, value := ",", lid := 6, bracketDepth := 1,
        parentType := some syms.subscriptlist } ] }

/-- The closing `]` of the two-element subscript `x[a, b,]`. -/
def exSub2Closing : Leaf :=
  { ttype := token.RSQB, value := "]", lid := 7,
    parentType := some syms.trailer, openingBracketId := some 2 }

/-- The import line `from a import (b, c` followed by its trailing comma. -/
def exImportLine : Line :=
  { mode := exMode
    leaves := [
      { ttype := token.NAME, value := "from", lid := 1, isImportStmt := true },
      { ttype := token.NAME, value := "a", lid := 2, isImportStmt := true },
      { ttype := token.NAME, value := "import", lid := 3, isImportStmt := true },
      { ttype := token.LPAR, value := "(", lid := 4 },
      { ttype := token.NAME, value := "b", lid := 5, bracketDepth := 1 },
      { ttype := token.COMMA, value := ",", lid := 6, bracketDepth := 1 },
      { ttype := token.NAME, value := "c", lid := 7, bracketDepth := 1 },
      { ttype := token.COMMA, value := ",", lid := 8, bracketDepth := 1 } ] }

/-- The closing `)` of `from a import (b, c,)`. -/
def exImportClosing : Leaf :=
  { ttype := token.RPAR, value := ")", lid := 9, openingBracketId := some 4 }

/-- A right-hand-split result whose body records no delimiters. -/
def exRhsNoDelims : RHSResult :=
  { head := { mode := exMode }
    body := { mode := exMode }
    tail := { mode := exMode }
    opening_bracket := { ttype := token.LPAR, value := "(" }
    closing_bracket := { ttype := token.RPAR, value := ")" } }

/-- A right-hand-split result whose body records two delimiters of the same
(maximal) priority, as in `a + b + c`. -/
def exRhsTwoPlus : RHSResult :=
  { head := { mode := exMode }
    body := { mode := exMode, bracket_tracker := { delimiters := [(11, 3), (13, 3)] } }
    tail := { mode := exMode }
    opening_bracket := { ttype := token.LPAR, value := "(" }
    closing_bracket := { ttype := token.RPAR, value := ")" } }

/-- A four-column budget with Black's pragma handling. -/
def exModeBudget4 : Mode := { line_length := 4, wrap_pragma_comments := true }

/-- A line rendering to exactly four columns. -/
def exLineLen4 : Line :=
  { mode := exModeBudget4, leaves := [ { ttype := token.NAME, value := "abcd", lid := 1 } ] }

/-- A line rendering to five columns. -/
def exLineLen5 : Line :=
  { mode := exModeBudget4, leaves := [ { ttype := token.NAME, value := "abcde", lid := 1 } ] }

/-- A three-column budget with Cercis's pragma-suffix stripping. -/
def exModeBudget3 : Mode := { line_length := 3, wrap_pragma_comments := false }

/-- A line rendering to `abc # noqa: x` (13 columns) whose pragma suffix
(10 columns) brings the effective length down to 3. -/
def exLinePragma : Line :=
  { mode := exModeBudget3
    leaves := [ { ttype := token.NAME, value := "abc", lid := 1 } ]
    comments := [(1, [ { ttype := token.COMMENT, value := "# noqa: x", pfx := " ", lid := 9 } ])] }

/-- A line whose mode asks for pragma protection (`wrap_pragma_comments`)
while a `# noqa` comment rides its last leaf. -/
def exLinePragmaWrap : Line :=
  { mode := { wrap_pragma_comments := true }
    leaves := [ { ttype := token.NAME, value := "abc", lid := 1 } ]
    comments := [(1, [ { ttype := token.COMMENT, value := "# noqa: E501", pfx := " ", lid := 9 } ])] }

/-- A populated line inside an open bracket (depth 1). -/
def exOpenBracketLine : Line :=
  { mode := exMode
    leaves := [ { ttype := token.NAME, value := "a", lid := 1 } ]
    bracket_tracker := { depth := 1 } }

/-- A standalone-comment leaf. -/
def exStandaloneLeaf : Leaf :=
  { ttype := STANDALONE_COMMENT, value := "# c", lid := 20 }

/-- A line ending in an invisible closing paren that wraps a single leaf. -/
def exInvisibleParenLine : Line :=
  { mode := exMode
    leaves := [
      { ttype := token.NAME, value := "a", lid := 1 },
      { ttype := token.RPAR, value := "", lid := 2, parentType := some 500,
        parentNLeaves := 3 } ] }

/-- A line holding only an invisible closing paren. -/
def exLoneInvisibleParenLine : Line :=
  { mode := exMode
    leaves := [
      { ttype := token.RPAR, value := "", lid := 2, parentType := some 500,
        parentNLeaves := 3 } ] }

/-- An inline comment leaf. -/
def exInlineComment : Leaf :=
  { ttype := token.COMMENT, value := "# hi", pfx := "  ", lid := 30 }

/-- A top-level `def` line. -/
def exDefLine : Line :=
  { mode := exMode, leaves := [ { ttype := token.NAME, value := "def", lid := 1 } ] }

/-- A top-level `def` line whose first leaf carries three leading newlines. -/
def exDefLine3NL : Line :=
  { mode := exMode
    leaves := [ { ttype := token.NAME, value := "def", pfx := "\n\n\n", lid := 1 } ] }

/-- A tracker that has just processed a top-level `def` (normal mode). -/
def exTrackerAfterDef : EmptyLineTracker :=
  { mode := exMode, previous_line := some exDefLine, previous_defs := [exDefLine] }

/-- Stub-file configuration. -/
def exModePyi : Mode := { is_pyi := true }

/-- A top-level `def` line under stub-file configuration. -/
def exDefLinePyi : Line :=
  { mode := exModePyi, leaves := [ { ttype := token.NAME, value := "def", lid := 1 } ] }

/-- A tracker that has just processed a top-level `def` (stub mode). -/
def exTrackerAfterDefPyi : EmptyLineTracker :=
  { mode := exModePyi, previous_line := some exDefLinePyi, previous_defs := [exDefLinePyi] }

/-- A tracker that has seen no line yet. -/
def exFreshTracker : EmptyLineTracker :=
  { mode := exMode }

/-- A token carrying no visible value (a NEWLINE token). -/
def exNewlineTok : Leaf :=
  { ttype := 4, value := "\n", lid := 40 }

/-- Python-style success test for the `Except`-modelled `append_safe`. -/
def exceptIsOk : Except String Line → Bool
  | .ok _ => true
  | .error _ => false

/-! Theorems for the frozen claims. -/

/-- C9: for every line state and every token whose type is not a bracket type
and whose text is empty or whitespace-only, `append` is a no-op: the whole
line — leaf sequence, comment map, bracket tracker and magic-trailing-comma
reference — is returned unchanged (concretely: appending a NEWLINE token to a
populated line changes nothing). -/
theorem C9_append_no_value_is_noop :
    (∀ (l : Line) (leaf : Leaf) (p t : Bool),
      BRACKETS.contains leaf.ttype = false → pyStrip leaf.value = "" →
      l.append leaf p t = l)
    ∧ exOpenBracketLine.append exNewlineTok = exOpenBracketLine := by
  refine ⟨?_, by decide⟩
  intro l leaf p t h1 h2
  have h3 : leaf.ttype ∉ BRACKETS := by simpa using h1
  simp [Line.append, h1, h2, h3]

/-- C10: the very first line fed to `maybe_empty_lines` (no previous line)
gets `before = 0` regardless of the newlines in its first token's prefix; for
every later line the returned `before` is the internally computed blank-line
count (`_maybe_empty_lines`) minus the previous block's `after` count
(concretely: a first `def` line with three leading newlines gets 0). -/
theorem C10_maybe_empty_lines_before_accounting :
    (∀ (t : EmptyLineTracker) (cur : Line), t.previous_line = none →
      (t.maybe_empty_lines cur).fst.before = 0)
    ∧ (∀ (t : EmptyLineTracker) (cur pl : Line), t.previous_line = some pl →
      (t.maybe_empty_lines cur).fst.before =
        (t._maybe_empty_lines cur).before -
          (t.previous_block).elim 0 LinesBlock.after)
    ∧ (exFreshTracker.maybe_empty_lines exDefLine3NL).fst.before = 0 := by
  refine ⟨?_, ?_, by decide⟩
  · intro t cur h
    simp [EmptyLineTracker.maybe_empty_lines, h, LinesBlock.before]
  · intro t cur pl h
    cases hb : t.previous_block <;>
      simp [EmptyLineTracker.maybe_empty_lines, h, hb, LinesBlock.before, Option.elim]

/-- C3: `can_omit_invisible_parens` returns true whenever the body's
delimiter tracker records no delimiters; false whenever more than one
delimiter exists at the body's maximum delimiter priority; and true when
exactly one delimiter exists at attribute-access (dot) priority (concretely:
a delimiter-free body is omittable, a body with two same-priority delimiters
is not). -/
theorem C3_can_omit_invisible_parens_delimiters :
    (∀ (rhs : RHSResult) (budget : Nat),
      rhs.body.bracket_tracker.delimiters = [] →
      can_omit_invisible_parens rhs budget = true)
    ∧ (∀ (rhs : RHSResult) (budget : Nat),
      rhs.body.bracket_tracker.delimiter_count_with_priority
          rhs.body.bracket_tracker.max_delimiter_priority > 1 →
      can_omit_invisible_parens rhs budget = false)
    ∧ (∀ (rhs : RHSResult) (budget : Nat),
      rhs.body.bracket_tracker.delimiter_count_with_priority
          rhs.body.bracket_tracker.max_delimiter_priority = 1 →
      rhs.body.bracket_tracker.max_delimiter_priority = DOT_PRIORITY →
      can_omit_invisible_parens rhs budget = true)
    ∧ can_omit_invisible_parens exRhsNoDelims 88 = true
    ∧ can_omit_invisible_parens exRhsTwoPlus 88 = false := by
  refine ⟨?_, ?_, ?_, by decide, by decide⟩
  · intro rhs budget h
    simp [can_omit_invisible_parens, h]
  · intro rhs budget h
    have hne : rhs.body.bracket_tracker.delimiters.isEmpty = false := by
      cases hd : rhs.body.bracket_tracker.delimiters with
      | nil =>
        rw [BracketTracker.delimiter_count_with_priority, hd] at h
        simp at h
      | cons a tl => simp
    simp [can_omit_invisible_parens, hne, h]
  · intro rhs budget hcount hmax
    have hne : rhs.body.bracket_tracker.delimiters.isEmpty = false := by
      cases hd : rhs.body.bracket_tracker.delimiters with
      | nil =>
        rw [BracketTracker.delimiter_count_with_priority, hd] at hcount
        simp at hcount
      | cons a tl => simp
    rw [hmax] at hcount
    simp [can_omit_invisible_parens, hne, hcount, hmax, DOT_PRIORITY, COMMA_PRIORITY]
    simp [DOT_PRIORITY] at hcount
    omega

/-- C2: `has_magic_trailing_comma` is false unless the candidate is a closing
bracket and the line's last leaf is a comma; under that precondition a
closing curly brace is always magic; a closing square bracket is not magic
when it closes a single-element subscript indexing trailer (one comma-free
element) and is magic for a two-element one; and any other closing bracket on
an import line is always magic (concretely evaluated on `x[a,]`, `x[a, b,]`
and `from a import (b, c,)`). -/
theorem C2_has_magic_trailing_comma_cases :
    (∀ (l : Line) (closing : Leaf) (er : Bool),
      ¬ (CLOSING_BRACKETS.contains closing.ttype = true ∧ l.leaves ≠ [] ∧
          l.leaves.getLast?.map Leaf.ttype = some token.COMMA) →
      l.has_magic_trailing_comma closing er = false)
    ∧ (∀ (l : Line) (closing : Leaf) (er : Bool),
      l.leaves ≠ [] → l.leaves.getLast?.map Leaf.ttype = some token.COMMA →
      closing.ttype = token.RBRACE →
      l.has_magic_trailing_comma closing er = true)
    ∧ (∀ (l : Line) (closing : Leaf) (er : Bool),
      l.leaves ≠ [] → l.leaves.getLast?.map Leaf.ttype = some token.COMMA →
      closing.ttype = token.RSQB → closing.parentType = some syms.trailer →
      closing.openingBracketId.isSome = true →
      is_one_sequence_between (closing.openingBracketId.getD 0) closing l.leaves = true →
      l.has_magic_trailing_comma closing er = false)
    ∧ (∀ (l : Line) (closing : Leaf),
      l.leaves ≠ [] → l.leaves.getLast?.map Leaf.ttype = some token.COMMA →
      closing.ttype = token.RSQB →
      is_one_sequence_between (closing.openingBracketId.getD 0) closing l.leaves = false →
      l.has_magic_trailing_comma closing = true)
    ∧ (∀ (l : Line) (closing : Leaf) (er : Bool),
      CLOSING_BRACKETS.contains closing.ttype = true →
      l.leaves ≠ [] → l.leaves.getLast?.map Leaf.ttype = some token.COMMA →
      closing.ttype ≠ token.RBRACE → closing.ttype ≠ token.RSQB →
      l.is_import = true →
      l.has_magic_trailing_comma closing er = true)
    ∧ exSub1Line.has_magic_trailing_comma exSub1Closing = false
    ∧ exSub2Line.has_magic_trailing_comma exSub2Closing = true
    ∧ exImportLine.has_magic_trailing_comma exImportClosing = true := by
  refine ⟨?_, ?_, ?_, ?_, ?_, by decide, by decide, by decide⟩
  · intro l closing er h
    simp only [Line.has_magic_trailing_comma]
    rw [if_pos]
    exact h
  · intro l closing er h1 h2 h3
    simp [Line.has_magic_trailing_comma, h1, h2, h3, CLOSING_BRACKETS, token.RBRACE]
  · intro l closing er h1 h2 h3 h4 h5 h6
    simp [Line.has_magic_trailing_comma, h1, h2, h3, h4, h5, h6, CLOSING_BRACKETS,
      token.RSQB, token.RBRACE]
  · intro l closing h1 h2 h3 h4
    simp [Line.has_magic_trailing_comma, h1, h2, h3, h4, CLOSING_BRACKETS,
      token.RSQB, token.RBRACE]
  · intro l closing er h0 h1 h2 h3 h4 h5
    have h6 : closing.ttype ∈ CLOSING_BRACKETS := by simpa using h0
    simp [Line.has_magic_trailing_comma, h0, h1, h2, h3, h4, h5, h6]

/-- A line that is a pure standalone comment (bracket depth zero). -/
def exCommentOnlyLine : Line :=
  { mode := exMode, leaves := [ { ttype := STANDALONE_COMMENT, value := "# c", lid := 1 } ] }

/-- C4 counterexample: a standalone comment appended to a line that already
has content *at non-zero bracket depth* does not raise — `append_safe`
succeeds there, while the claim predicts a protocol-violation error; and a
*comment* token appended to a pure standalone-comment line at depth zero does
raise, while the claim (which only covers non-comment tokens there) predicts
success. -/
theorem C4_counterexample_append_safe_nonzero_depth :
    (exOpenBracketLine.bracket_tracker.depth ≠ 0 ∧
      exOpenBracketLine.leaves ≠ [] ∧
      exOpenBracketLine.is_comment = false ∧
      exStandaloneLeaf.ttype = STANDALONE_COMMENT ∧
      exceptIsOk (exOpenBracketLine.append_safe exStandaloneLeaf) = true) ∧
    (exCommentOnlyLine.bracket_tracker.depth = 0 ∧
      exCommentOnlyLine.is_comment = true ∧
      exInlineComment.ttype = token.COMMENT ∧
      exceptIsOk (exCommentOnlyLine.append_safe exInlineComment) = false) := by
  decide

/-- C4 (amended): `append_safe` raises a protocol-violation error exactly
when the line's bracket depth is zero and either the line is already a pure
standalone comment (whatever the appended token), or a standalone-comment
token is appended to a line that already has content; in every other case it
behaves identically to `append` (concretely: appending to a pure
standalone-comment line at depth zero errors). -/
theorem C4_append_safe_error_iff :
    (∀ (l : Line) (leaf : Leaf) (p : Bool),
      exceptIsOk (l.append_safe leaf p) = false ↔
        (l.bracket_tracker.depth = 0 ∧
          (l.is_comment = true ∨ (l.leaves ≠ [] ∧ leaf.ttype = STANDALONE_COMMENT))))
    ∧ (∀ (l : Line) (leaf : Leaf) (p : Bool),
      ¬ (l.bracket_tracker.depth = 0 ∧
          (l.is_comment = true ∨ (l.leaves ≠ [] ∧ leaf.ttype = STANDALONE_COMMENT))) →
      l.append_safe leaf p = Except.ok (l.append leaf p))
    ∧ exceptIsOk (exCommentOnlyLine.append_safe exNewlineTok) = false := by
  refine ⟨?_, ?_, by decide⟩
  · intro l leaf p
    by_cases hd : l.bracket_tracker.depth = 0
    · by_cases hc : l.is_comment
      · simp [Line.append_safe, hd, hc, exceptIsOk]
      · by_cases hs : l.leaves ≠ [] ∧ leaf.ttype = STANDALONE_COMMENT
        · simp [Line.append_safe, hd, hc, hs, exceptIsOk]
        · simp [Line.append_safe, hd, hc, hs, exceptIsOk]
    · simp [Line.append_safe, hd, exceptIsOk]
  · intro l leaf p h
    by_cases hd : l.bracket_tracker.depth = 0
    · by_cases hc : l.is_comment
      · exact absurd ⟨hd, Or.inl hc⟩ h
      · by_cases hs : l.leaves ≠ [] ∧ leaf.ttype = STANDALONE_COMMENT
        · exact absurd ⟨hd, Or.inr hs⟩ h
        · simp [Line.append_safe, hd, hc, hs]
    · simp [Line.append_safe, hd]

/-- Per-comment pragma-suffix contribution as the amended C5 states it: the
length of the comment's rendered text from the start of its matched pragma
marker (marker included) onward, zero when no pragma matches. -/
def pragmaSuffixLen (comment : Leaf) : Nat :=
  let cs := (leafStr comment).toList
  match findPragmaStart cs with
  | some s => cs.length - s
  | none => 0

/-- The accumulation of `trailing_pragma_comment_length` is the sum of the
per-comment pragma-suffix contributions. -/
theorem trailing_pragma_foldl_eq_sum (xs : List Leaf) (n : Nat) :
    xs.foldl (fun length comment =>
      match findPragmaStart (leafStr comment).toList with
      | some s => length + ((leafStr comment).toList.length - s)
      | none => length) n = n + (xs.map pragmaSuffixLen).sum := by
  induction xs generalizing n with
  | nil => simp
  | cons c t ih =>
    have hstep : ∀ (m : Nat) (d : Leaf),
        (match findPragmaStart (leafStr d).toList with
          | some s => m + ((leafStr d).toList.length - s)
          | none => m) = m + pragmaSuffixLen d := by
      intro m d
      simp only [pragmaSuffixLen]
      cases h : findPragmaStart (leafStr d).toList <;> simp
    rw [List.foldl_cons, ih, hstep]
    simp [List.map_cons, List.sum_cons]
    omega

/-- C5 (amended): `trailing_pragma_comment_length` is independent of the
formatter configuration — it never checks the pragma-protection setting — and
returns the sum, over the comments attached to the line's last leaf, of the
length of each comment's rendered text from the start of the recognized
pragma marker (marker included) onward; zero when the line has no leaves
(concretely: 13 for a trailing ` # noqa: E501`). -/
theorem C5_trailing_pragma_length_mode_free :
    (∀ (l : Line) (m : Mode),
      (Line.mk m l.depth l.leaves l.comments l.bracket_tracker l.inside_brackets
          l.should_split_rhs l.magic_trailing_comma).trailing_pragma_comment_length =
        l.trailing_pragma_comment_length)
    ∧ (∀ (l : Line) (last : Leaf), l.leaves.getLast? = some last →
      l.trailing_pragma_comment_length = ((l.comments_after last).map pragmaSuffixLen).sum)
    ∧ (∀ (l : Line), l.leaves = [] → l.trailing_pragma_comment_length = 0)
    ∧ exLinePragmaWrap.trailing_pragma_comment_length = 13 := by
  refine ⟨?_, ?_, ?_, by decide⟩
  · intro l m
    rfl
  · intro l last h
    simp only [Line.trailing_pragma_comment_length, h]
    rw [trailing_pragma_foldl_eq_sum]
    omega
  · intro l h
    simp [Line.trailing_pragma_comment_length, h]

/-- C5 counterexample: with the mode configured to always protect pragma
comments (`wrap_pragma_comments`), where the claim predicts zero,
`trailing_pragma_comment_length` still returns the full pragma-suffix length
13 — and 13 also counts the marker ` # noqa:` itself, not only the text after
it. -/
theorem C5_counterexample_pragma_length_not_mode_gated :
    exLinePragmaWrap.mode.wrap_pragma_comments = true ∧
    exLinePragmaWrap.trailing_pragma_comment_length = 13 ∧
    exLinePragmaWrap.trailing_pragma_comment_length ≠ 0 := by
  decide

/-- C6: an inline, non-type comment whose attachment target is an invisible
zero-width closing paren wrapping a single underlying token is filed under
the leaf immediately before that paren; with fewer than two leaves on the
line it instead becomes a standalone comment (type changed, prefix cleared)
and is rejected from the leaf sequence (concretely evaluated on a redirected
and on a reverted comment). -/
theorem C6_append_comment_invisible_paren_redirect :
    (∀ (l : Line) (c last penult : Leaf),
      c.ttype = token.COMMENT → is_type_comment c = false →
      l.leaves.getLast? = some last →
      last.ttype = token.RPAR → last.value = "" → last.parentType.isSome = true →
      last.parentNLeaves ≤ 3 →
      l.leaves[l.leaves.length - 2]? = some penult → 2 ≤ l.leaves.length →
      l.append_comment c = (true, c,
        { l with comments := commentsSetdefaultAppend l.comments penult.lid c }))
    ∧ (∀ (l : Line) (c only : Leaf),
      c.ttype = token.COMMENT → is_type_comment c = false →
      l.leaves = [only] →
      only.ttype = token.RPAR → only.value = "" → only.parentType.isSome = true →
      only.parentNLeaves ≤ 3 →
      l.append_comment c = (false, { c with ttype := STANDALONE_COMMENT, pfx := "" }, l))
    ∧ exInvisibleParenLine.append_comment exInlineComment = (true, exInlineComment,
        { exInvisibleParenLine with comments := [(1, [exInlineComment])] })
    ∧ (exLoneInvisibleParenLine.append_comment exInlineComment).fst = false
    ∧ (exLoneInvisibleParenLine.append_comment exInlineComment).2.1.ttype =
        STANDALONE_COMMENT := by
  refine ⟨?_, ?_, by decide, by decide, by decide⟩
  · intro l c last penult hc htc hlast ht hv hp hn hpen hlen
    have hne : ¬ (l.leaves.length < 2) := by omega
    simp [Line.append_comment, hc, htc, hlast, ht, hv, hp, hn, hpen, hne,
      token.COMMENT, STANDALONE_COMMENT]
  · intro l c only hc htc hleaves ht hv hp hn
    simp [Line.append_comment, hc, htc, hleaves, ht, hv, hp, hn,
      token.COMMENT, STANDALONE_COMMENT]

/-- The rendering `is_line_short_enough` measures, per the claim: the
tab-width-aware render (newlines stripped) when tabs are in effect, otherwise
the plain rendering of the line. -/
def renderedForFit (line : Line) (mode : Mode) : String :=
  if mode.use_tabs then pyStripChar line.render_as_str_for_width_calculation '\n'
  else line_to_string line

/-- Display width per the claim: wide-character-aware in preview mode, plain
character count otherwise. -/
def displayWidth (mode : Mode) (s : String) : Nat :=
  if mode.preview then str_width s else s.length

/-- The claim's effective length: the rendering's full display width minus
the trailing pragma-comment suffix length, unless the formatter is configured
to always protect pragma comments. -/
def effectiveLengthSpec (line : Line) (mode : Mode) : Int :=
  (displayWidth mode (renderedForFit line mode) : Int) -
    (if mode.wrap_pragma_comments then 0 else (line.trailing_pragma_comment_length : Int))

/-- C1: with multi-line-string-aware layout disabled, `is_line_short_enough`
is true iff the effective length (display width minus the trailing
pragma-comment suffix when pragma comments are not always protected) is at
most the line-length budget, the rendering has no embedded newline, and the
line has no standalone comments (concretely: a rendering of exactly `budget`
characters fits, `budget + 1` does not, and a line whose full text exceeds
the budget by its `# noqa` suffix fits when pragma stripping is on). -/
theorem C1_is_line_short_enough_disabled_iff :
    (∀ (line : Line) (mode : Mode), mode.multiline_string_handling = false →
      (is_line_short_enough line mode = true ↔
        (effectiveLengthSpec line mode ≤ (mode.line_length : Int) ∧
          containsChar (renderedForFit line mode) '\n' = false ∧
          line.contains_standalone_comments = false)))
    ∧ is_line_short_enough exLineLen4 exModeBudget4 = true
    ∧ is_line_short_enough exLineLen5 exModeBudget4 = false
    ∧ is_line_short_enough exLinePragma exModeBudget3 = true := by
  refine ⟨?_, by decide, by decide, by decide⟩
  intro line mode h
  by_cases hw : mode.wrap_pragma_comments <;> by_cases ht : mode.use_tabs <;>
    simp [is_line_short_enough, effectiveLengthSpec, renderedForFit, displayWidth,
      h, hw, ht, and_assoc]

/-- Clearing the first leaf's prefix does not change the line's depth. -/
theorem clearFirstPfx_depth (l : Line) : (clearFirstPfx l).depth = l.depth := by
  cases h : l.leaves <;> simp [clearFirstPfx, h]

/-- Clearing the first leaf's prefix does not change `is_def`. -/
theorem clearFirstPfx_is_def (l : Line) : (clearFirstPfx l).is_def = l.is_def := by
  match h : l.leaves with
  | [] => simp [clearFirstPfx, h, Line.is_def]
  | [a] => simp [clearFirstPfx, h, Line.is_def]
  | a :: b :: t => simp [clearFirstPfx, h, Line.is_def]

/-- A `def` line is not a standalone comment. -/
theorem is_def_not_comment (l : Line) (h : l.is_def = true) : l.is_comment = false := by
  match hl : l.leaves with
  | [] => simp [Line.is_def, hl] at h
  | [a] =>
    simp only [Line.is_def, hl, Bool.and_eq_true, decide_eq_true_eq] at h
    simp [Line.is_comment, hl, h.1, token.NAME, STANDALONE_COMMENT]
  | a :: b :: t => simp [Line.is_comment, hl]

/-- A `def` line is not a decorator. -/
theorem is_def_not_decorator (l : Line) (h : l.is_def = true) : l.is_decorator = false := by
  match hl : l.leaves with
  | [] => simp [Line.is_def, hl] at h
  | [a] =>
    simp only [Line.is_def, hl, Bool.and_eq_true, decide_eq_true_eq] at h
    simp [Line.is_decorator, hl, h.1, token.NAME, token.AT]
  | a :: b :: t =>
    simp only [Line.is_def, hl, Bool.and_eq_true, Bool.or_eq_true, decide_eq_true_eq] at h
    rcases h with h | h <;>
      simp [Line.is_decorator, hl, h.1, token.NAME, token.ASYNC, token.AT]

/-- A `def` line is not a class definition. -/
theorem is_def_not_class (l : Line) (h : l.is_def = true) : l.is_class = false := by
  match hl : l.leaves with
  | [] => simp [Line.is_def, hl] at h
  | [a] =>
    simp only [Line.is_def, hl, Bool.and_eq_true, decide_eq_true_eq] at h
    simp [Line.is_class, hl, h.2]
  | a :: b :: t =>
    simp only [Line.is_def, hl, Bool.and_eq_true, Bool.or_eq_true, decide_eq_true_eq] at h
    rcases h with h | h
    · simp [Line.is_class, hl, h.2]
    · simp [Line.is_class, hl, h.1, token.NAME, token.ASYNC]

/-- The class/def spacing sub-procedure on a top-level `def` whose previous
line is also a top-level `def`: 0 blank lines in stub mode, 2 otherwise, and
never any after. -/
theorem mel_class_or_def_def_after_def (t : EmptyLineTracker) (cur prev : Line)
    (before : Int) (defsIn : List Line)
    (hprev : t.previous_line = some prev)
    (hcd : cur.is_def = true) (hcdep : cur.depth = [])
    (hpd : prev.is_def = true) (hpdep : prev.depth = []) :
    (t._maybe_empty_lines_for_class_or_def cur before defsIn).1 =
      (if t.mode.is_pyi then 0 else 2) ∧
    (t._maybe_empty_lines_for_class_or_def cur before defsIn).2.1 = 0 := by
  have h1 := is_def_not_decorator prev hpd
  have h2 := is_def_not_comment prev hpd
  have h3 := is_def_not_class prev hpd
  have h4 := is_def_not_class cur hcd
  by_cases hp : t.mode.is_pyi <;>
    simp [EmptyLineTracker._maybe_empty_lines_for_class_or_def, hprev, h1, h2, h3, h4,
      hcd, hpd, hcdep, hpdep, hp]

/-- The raw blank-line computation on a top-level `def` whose previous line
is also a top-level `def`. -/
theorem mel_inner_def_after_def (t : EmptyLineTracker) (cur prev : Line)
    (hprev : t.previous_line = some prev)
    (hcd : cur.is_def = true) (hcdep : cur.depth = [])
    (hpd : prev.is_def = true) (hpdep : prev.depth = []) :
    (t._maybe_empty_lines cur).before = (if t.mode.is_pyi then 0 else 2) ∧
    (t._maybe_empty_lines cur).after = 0 := by
  have hd2 : (clearFirstPfx cur).is_def = true := by rw [clearFirstPfx_is_def]; exact hcd
  have hdep2 : (clearFirstPfx cur).depth = [] := by rw [clearFirstPfx_depth]; exact hcdep
  simp [EmptyLineTracker._maybe_empty_lines, hd2]
  exact mel_class_or_def_def_after_def t (clearFirstPfx cur) prev _ _ hprev hd2 hdep2 hpd hpdep

/-- The class/def spacing sub-procedure in stub mode on a `def` whose
previous line is a `def` at equal depth: no blank lines before or after. -/
theorem mel_class_or_def_def_after_def_pyi (t : EmptyLineTracker) (cur prev : Line)
    (before : Int) (defsIn : List Line)
    (hpyi : t.mode.is_pyi = true) (hprev : t.previous_line = some prev)
    (hcd : cur.is_def = true) (hpd : prev.is_def = true)
    (heq : prev.depth.length = cur.depth.length) :
    (t._maybe_empty_lines_for_class_or_def cur before defsIn).1 = 0 ∧
    (t._maybe_empty_lines_for_class_or_def cur before defsIn).2.1 = 0 := by
  have h1 := is_def_not_decorator prev hpd
  have h2 := is_def_not_comment prev hpd
  have h3 := is_def_not_class prev hpd
  have h4 := is_def_not_class cur hcd
  simp [EmptyLineTracker._maybe_empty_lines_for_class_or_def, hprev, h1, h2, h3, h4,
    hcd, hpd, hpyi, heq]

/-- The raw blank-line computation in stub mode on a `def` whose previous
line is a `def` at equal depth. -/
theorem mel_inner_def_after_def_pyi (t : EmptyLineTracker) (cur prev : Line)
    (hpyi : t.mode.is_pyi = true) (hprev : t.previous_line = some prev)
    (hcd : cur.is_def = true) (hpd : prev.is_def = true)
    (heq : prev.depth.length = cur.depth.length) :
    (t._maybe_empty_lines cur).before = 0 ∧ (t._maybe_empty_lines cur).after = 0 := by
  have hd2 : (clearFirstPfx cur).is_def = true := by rw [clearFirstPfx_is_def]; exact hcd
  have heq2 : prev.depth.length = (clearFirstPfx cur).depth.length := by
    rw [clearFirstPfx_depth]; exact heq
  simp [EmptyLineTracker._maybe_empty_lines, hd2]
  exact mel_class_or_def_def_after_def_pyi t (clearFirstPfx cur) prev _ _ hpyi hprev hd2
    hpd heq2

/-- C7: two consecutive top-level `def` lines (previous block's after-count
zero) get 2 blank lines before and 0 after in normal mode; in stub mode two
consecutive `def` lines at equal depth get 0 before (concretely evaluated on
a pair of module-level `def` lines in both modes). -/
theorem C7_blank_lines_between_top_level_defs :
    (∀ (t : EmptyLineTracker) (cur prev : Line),
      t.mode.is_pyi = false → t.previous_line = some prev →
      cur.is_def = true → cur.depth = [] → prev.is_def = true → prev.depth = [] →
      (t.previous_block).elim 0 LinesBlock.after = 0 →
      (t.maybe_empty_lines cur).fst.before = 2 ∧ (t.maybe_empty_lines cur).fst.after = 0)
    ∧ (∀ (t : EmptyLineTracker) (cur prev : Line),
      t.mode.is_pyi = true → t.previous_line = some prev →
      cur.is_def = true → prev.is_def = true →
      prev.depth.length = cur.depth.length →
      (t.previous_block).elim 0 LinesBlock.after = 0 →
      (t.maybe_empty_lines cur).fst.before = 0)
    ∧ ((exTrackerAfterDef.maybe_empty_lines exDefLine3NL).fst.before = 2 ∧
      (exTrackerAfterDef.maybe_empty_lines exDefLine3NL).fst.after = 0)
    ∧ (exTrackerAfterDefPyi.maybe_empty_lines exDefLinePyi).fst.before = 0 := by
  refine ⟨?_, ?_, ⟨by decide, by decide⟩, by decide⟩
  · intro t cur prev hpyi hprev hcd hcdep hpd hpdep hafter
    have hin := mel_inner_def_after_def t cur prev hprev hcd hcdep hpd hpdep
    rw [hpyi] at hin
    simp only [if_neg Bool.false_ne_true] at hin
    cases hb : t.previous_block with
    | none =>
      simp [EmptyLineTracker.maybe_empty_lines, hprev, hb, LinesBlock.before,
        LinesBlock.after, hin.1, hin.2]
    | some b =>
      rw [hb] at hafter
      simp only [Option.elim] at hafter
      simp [EmptyLineTracker.maybe_empty_lines, hprev, hb, LinesBlock.before,
        LinesBlock.after, hin.1, hin.2, hafter]
      simpa [LinesBlock.after] using hafter
  · intro t cur prev hpyi hprev hcd hpd heq hafter
    have hin := mel_inner_def_after_def_pyi t cur prev hpyi hprev hcd hpd heq
    cases hb : t.previous_block with
    | none =>
      simp [EmptyLineTracker.maybe_empty_lines, hprev, hb, LinesBlock.before,
        LinesBlock.after, hin.1]
    | some b =>
      rw [hb] at hafter
      simp only [Option.elim] at hafter
      simp [EmptyLineTracker.maybe_empty_lines, hprev, hb, LinesBlock.before,
        LinesBlock.after, hin.1, hafter]
      simpa [LinesBlock.after] using hafter

/-- No leaf of the line carries the inline-comment token type. -/
def NoInlineCommentLeaf (l : Line) : Prop :=
  ∀ x ∈ l.leaves, x.ttype ≠ token.COMMENT

/-- `append_comment` never touches the leaf sequence, and a comment it
rejects has been retyped so that it is no inline comment (it is either
returned unchanged — and then was no inline comment to begin with — or
converted to a standalone comment). -/
theorem append_comment_spec (l : Line) (c : Leaf) :
    (l.append_comment c).2.2.leaves = l.leaves ∧
    ((l.append_comment c).1 = false → (l.append_comment c).2.1.ttype ≠ token.COMMENT) := by
  unfold Line.append_comment
  split
  · rename_i hcond
    refine ⟨rfl, fun _ => ?_⟩
    show c.ttype ≠ token.COMMENT
    rw [hcond.1]
    decide
  · split
    · rename_i hne
      exact ⟨rfl, fun _ => hne⟩
    · split
      · refine ⟨rfl, fun _ => ?_⟩
        show STANDALONE_COMMENT ≠ token.COMMENT
        decide
      · split
        · split
          · refine ⟨rfl, fun _ => ?_⟩
            show STANDALONE_COMMENT ≠ token.COMMENT
            decide
          · exact ⟨rfl, by simp⟩
        · exact ⟨rfl, by simp⟩

/-- The final comment-attachment statement of `append` preserves the
no-inline-comment invariant. -/
theorem no_inline_append_comment_stage (l : Line) (c : Leaf)
    (h : NoInlineCommentLeaf l) :
    NoInlineCommentLeaf
      (match l.append_comment c with
        | (true, _, l2) => l2
        | (false, c2, l2) => { l2 with leaves := l2.leaves ++ [c2] }) := by
  have hs := append_comment_spec l c
  rcases hac : l.append_comment c with ⟨fst, c2, l2⟩
  rw [hac] at hs
  cases fst
  · intro x hx
    simp only at hx
    have hleq : l2.leaves = l.leaves := hs.1
    rw [hleq] at hx
    rcases List.mem_append.mp hx with hx | hx
    · exact h x hx
    · rw [List.mem_singleton.mp hx]
      exact hs.2 rfl
  · intro x hx
    simp only at hx
    rw [hs.1] at hx
    exact h x hx

/-- The class-paren cleanup preserves the no-inline-comment invariant. -/
theorem no_inline_colon_cleanup (l : Line) (c : Leaf) (h : NoInlineCommentLeaf l) :
    NoInlineCommentLeaf (l.appendColonCleanup c) := by
  unfold Line.appendColonCleanup
  split
  · intro x hx
    simp only at hx
    exact h x (List.dropLast_subset _ (List.dropLast_subset _ hx))
  · exact h

/-- `remove_trailing_comma` keeps only leaves of the original line. -/
theorem remove_trailing_comma_leaves_subset (l : Line) :
    ∀ x ∈ (l.remove_trailing_comma).leaves, x ∈ l.leaves := by
  unfold Line.remove_trailing_comma
  split
  · exact fun x hx => hx
  · dsimp only
    split
    · exact fun x hx => hx
    · intro x hx
      simp only at hx
      exact List.dropLast_subset _ hx

/-- The bracket-tracking / magic-comma statements preserve the
no-inline-comment invariant. -/
theorem no_inline_track_bracket (l : Line) (c : Leaf) (p t : Bool)
    (h : NoInlineCommentLeaf l) :
    NoInlineCommentLeaf (l.appendTrackBracket c p t) := by
  unfold Line.appendTrackBracket
  split
  · dsimp only
    split
    · split
      · exact h
      · exact h
    · split
      · intro x hx
        exact h x (remove_trailing_comma_leaves_subset
          { l with bracket_tracker := l.bracket_tracker.mark c } x hx)
      · exact h
  · exact h

/-- The retyped leaf of `appendWhitespace` keeps its token type. -/
theorem appendWhitespace_ttype (l : Line) (c : Leaf) (p : Bool) :
    (l.appendWhitespace c p).ttype = c.ttype := by
  unfold Line.appendWhitespace
  split <;> rfl

/-- C8: the no-inline-comment invariant — no leaf in the leaf sequence ever
has the inline-comment token type — is preserved by every `append` and every
successful `append_safe`, and holds of a freshly constructed line (concretely:
appending an inline comment to a populated line stores no comment-typed
leaf). -/
theorem C8_no_inline_comment_leaf_invariant :
    (∀ (l : Line) (leaf : Leaf) (p t : Bool),
      NoInlineCommentLeaf l → NoInlineCommentLeaf (l.append leaf p t))
    ∧ (∀ (l : Line) (leaf : Leaf) (p : Bool) (l2 : Line),
      NoInlineCommentLeaf l → l.append_safe leaf p = Except.ok l2 →
      NoInlineCommentLeaf l2)
    ∧ (∀ (m : Mode), NoInlineCommentLeaf { mode := m })
    ∧ ((exInvisibleParenLine.append exInlineComment).leaves.all
        (fun x => x.ttype ≠ token.COMMENT) = true) := by
  have happ : ∀ (l : Line) (leaf : Leaf) (p t : Bool),
      NoInlineCommentLeaf l → NoInlineCommentLeaf (l.append leaf p t) := by
    intro l leaf p t h
    unfold Line.append
    dsimp only
    split
    · exact h
    · exact no_inline_append_comment_stage _ _
        (no_inline_track_bracket _ _ _ _ (no_inline_colon_cleanup _ _ h))
  refine ⟨happ, ?_, ?_, by decide⟩
  · intro l leaf p l2 h hsafe
    unfold Line.append_safe at hsafe
    split at hsafe
    · split at hsafe
      · exact absurd hsafe (by simp)
      · split at hsafe
        · exact absurd hsafe (by simp)
        · cases hsafe
          exact happ l leaf p false h
    · cases hsafe
      exact happ l leaf p false h
  · intro m x hx
    simp [Line.leaves] at hx
